import Mathlib

/-!
Shallow embedding of `src/urlfetch/main.py` (a concurrent URL fetcher) and
proofs of the specification claims about it.

The Python program reads a file of URLs, normalizes bare hostnames into
`http://`/`https://` pairs, enqueues them, fetches each with a thread pool,
and maintains three global counters (`total_urls_in_queue`, `processed_urls`,
`failed_urls`) updated under a lock together with a terminal redraw.

The embedding models:
  - Python `str.strip`, `str.startswith`, slicing and concatenation on
    `String` via its underlying `List Char`;
  - `read_urls_from_file` as a fold over the file lines, threading the
    queue contents and the `total_urls_in_queue` counter;
  - `get_url_content` as a function of the network outcome for the URL,
    returning the body, the statistics updates it performs, and the error
    lines it logs;
  - `update_and_print_statistics` / `clear_previous_lines` as a render
    effect recording how many lines are cleared and which strings are
    printed;
  - `process_urls` as the sequential submission loop (the list
    comprehension dequeues `qsize()` times in the main thread) followed by
    the `as_completed` await loop;
  - `main` as a function of `sys.argv`, the file system, and the network.
-/

/-- Python whitespace for `str.strip()`: space, tab, newline, carriage
return, vertical tab, form feed. -/
def pyIsSpace (c : Char) : Bool :=
  c = ' ' || c = '\t' || c = '\n' || c = '\r' || c = '\x0b' || c = '\x0c'

/-- Python `line.strip()`: remove leading and trailing whitespace. -/
def pyStrip (s : String) : String :=
  ⟨((s.data.dropWhile pyIsSpace).reverse.dropWhile pyIsSpace).reverse⟩

/-- Python `s.startswith(pre)`: `pre` is a prefix of `s`. -/
def py_startswith (s pre : String) : Bool :=
  decide (s.data.take pre.data.length = pre.data)

/-- Python `s[n:]`: drop the first `n` characters. -/
def py_drop (s : String) : Nat → String :=
  fun n => ⟨s.data.drop n⟩

/-- Python string concatenation `a + b`. -/
def py_concat (a b : String) : String :=
  ⟨a.data ++ b.data⟩

/-- The queue entries produced for one input line by the body of the loop in
`read_urls_from_file`: a stripped line starting with `http` (the check
`url.startswith("http") or url.startswith("https")`) is enqueued as-is;
any other line has a leading `www.` stripped and is enqueued twice, with
`http://` and with `https://` prefixes. -/
def enqueueForLine (line : String) : List String :=
  let url := pyStrip line
  if py_startswith url "http" || py_startswith url "https" then
    [url]
  else
    let url2 := if py_startswith url "www." then py_drop url 4 else url
    [py_concat "http://" url2, py_concat "https://" url2]

/-- The loop of `read_urls_from_file`, threading the state
`(url_queue contents, total_urls_in_queue)`: `+ 1` on the absolute-URL
branch, `+ 2` on the bare-host branch, exactly as in the source. -/
def read_loop : List String → List String × Nat → List String × Nat
  | [], st => st
  | line :: rest, st =>
    let url := pyStrip line
    if py_startswith url "http" || py_startswith url "https" then
      read_loop rest (st.1 ++ [url], st.2 + 1)
    else
      let url2 := if py_startswith url "www." then py_drop url 4 else url
      read_loop rest
        (st.1 ++ [py_concat "http://" url2, py_concat "https://" url2],
         st.2 + 2)

/-- `read_urls_from_file`, with the file given as its list of lines: returns
the queue contents in order and the final `total_urls_in_queue`. -/
def read_urls_from_file (lines : List String) : List String × Nat :=
  read_loop lines ([], 0)

/-- The two mutable statistics counters (`total_urls_in_queue` is passed
separately since it is fixed before processing starts). -/
structure Stats where
  processed_urls : Nat
  failed_urls : Nat
deriving DecidableEq, Repr

/-- Initial counter values. -/
def init_stats : Stats := ⟨0, 0⟩

/-- The counter mutation inside `update_and_print_statistics`: increment
`processed_urls` on success, `failed_urls` on failure. -/
def update_stats (success : Bool) (s : Stats) : Stats :=
  if success then { s with processed_urls := s.processed_urls + 1 }
  else { s with failed_urls := s.failed_urls + 1 }

/-- Run a sequence of statistics updates in order (the lock serializes all
`update_and_print_statistics` calls, so a run is a linear sequence). -/
def run_updates (outcomes : List Bool) (s : Stats) : Stats :=
  outcomes.foldl (fun st b => update_stats b st) s

/-- Effect of one `update_and_print_statistics` call: the new counters, how
many terminal lines were cleared, and the arguments of the `print` calls. -/
structure RenderEffect where
  stats : Stats
  cleared : Nat
  prints : List String
deriving DecidableEq, Repr

/-- `update_and_print_statistics(success)`: under the lock it calls
`clear_previous_lines(7)`, increments the matching counter, and issues four
`print` calls: the three counter lines and `print("\n")`. -/
def update_and_print_statistics (success : Bool) (total : Nat) (s : Stats) :
    RenderEffect :=
  let s2 := update_stats success s
  { stats := s2
    cleared := 7
    prints := [py_concat "Total URLs in queue: " (toString total),
               py_concat "Processed URLs: " (toString s2.processed_urls),
               py_concat "Failed URLs: " (toString s2.failed_urls),
               "\n"] }

/-- Number of newline characters in a string. -/
def newline_count (s : String) : Nat :=
  s.data.count '\n'

/-- Terminal lines advanced by a sequence of Python `print(p)` calls: each
call writes `p` followed by one newline. -/
def lines_advanced (prints : List String) : Nat :=
  (prints.map (fun p => newline_count p + 1)).sum

/-- An HTTP response as seen by `requests.get`. -/
structure Response where
  status_code : Nat
  text : String
deriving DecidableEq, Repr

/-- `response.raise_for_status()`: raises `requests.exceptions.HTTPError`
(a `RequestException`) for 4xx client errors and 5xx server errors. -/
def raise_for_status (r : Response) : Except String Unit :=
  if 400 ≤ r.status_code ∧ r.status_code < 500 then
    Except.error (py_concat (toString r.status_code) " Client Error")
  else if 500 ≤ r.status_code ∧ r.status_code < 600 then
    Except.error (py_concat (toString r.status_code) " Server Error")
  else Except.ok ()

/-- Outcome of the `requests.get(url)` call for one URL: a response (of any
status), a raised `requests.exceptions.RequestException` (DNS failure,
connection refused, timeout, ...), or any other raised exception. -/
inductive FetchOutcome where
  | response (r : Response)
  | requestError (msg : String)
  | otherError (msg : String)
deriving DecidableEq, Repr

/-- Effect of one `get_url_content` call: its return value, the list of
`update_and_print_statistics` calls it makes (`true` = success), and the
error lines it prints. -/
structure FetchEffect where
  body : Option String
  updates : List Bool
  log : List String
deriving DecidableEq, Repr

/-- `get_url_content(url, executor)` as a function of the network outcome:
on a response it calls `raise_for_status`; an `HTTPError` is a
`RequestException`, so both it and transport errors land in the first
`except` clause; any other exception lands in the second; each branch makes
exactly one statistics update. -/
def get_url_content (f : FetchOutcome) : FetchEffect :=
  match f with
  | .response r =>
    match raise_for_status r with
    | .ok _ =>
        { body := some r.text, updates := [true], log := [] }
    | .error e =>
        { body := none, updates := [false],
          log := [py_concat "Error while fetching the URL: " e] }
  | .requestError e =>
      { body := none, updates := [false],
        log := [py_concat "Error while fetching the URL: " e] }
  | .otherError e =>
      { body := none, updates := [false],
        log := [py_concat "Unexpected error: " e] }

/-- The task-submission list comprehension in `process_urls`: it evaluates
`url_queue.get()` once per iteration, sequentially in the main thread,
`range(url_queue.qsize())` times; each `get` removes the head of the queue.
(The empty case is unreachable because the count equals the queue length;
in Python a `get` on an empty queue would block.) -/
def submit_loop : Nat → List String → List String
  | 0, _ => []
  | _ + 1, [] => []
  | n + 1, u :: rest => u :: submit_loop n rest

/-- The URLs on which `process_urls` submits a `get_url_content` task:
`qsize()` is taken as a snapshot of the fully populated queue. -/
def process_urls (q : List String) : List String :=
  submit_loop q.length q

/-- Result of awaiting one future in the `as_completed` loop: either
`future.result()` returns (the value `get_url_content` returned), or it
raises an unexpected exception. -/
inductive TaskResult where
  | ok (content : Option String)
  | exc (msg : String)
deriving DecidableEq, Repr

/-- Python attribute access `future.url` in the except handler of
`process_urls`: `concurrent.futures.Future` defines no attribute `url`, so
the access raises `AttributeError`. -/
def future_url_attr : Except String String :=
  Except.error "AttributeError: Future object has no attribute url"

/-- The `as_completed` await loop of `process_urls`, over the task results
in completion order: on a result it continues; on an unexpected exception it
evaluates the f-string `f"Failed to process {future.url}: {e}"`, whose
`future.url` access raises, and an exception raised inside the except
handler propagates out of the loop. Returns the number of futures whose
results were awaited and handled, or the propagated exception. -/
def await_loop : List TaskResult → Except String Nat
  | [] => .ok 0
  | r :: rest =>
    match r with
    | .ok _ => (await_loop rest).map (· + 1)
    | .exc _ =>
      match future_url_attr with
      | .ok _ => (await_loop rest).map (· + 1)
      | .error a => .error a

/-- The two lines printed by `print_help`. -/
def usage_lines : List String :=
  ["Usage: python main.py [file with urls]",
   "Example: python main.py ./urls.txt"]

/-- Observable result of `main`: what is printed (outside the redrawn
statistics block) and which URLs are fetched. -/
structure MainResult where
  prints : List String
  fetch_calls : List String
deriving DecidableEq, Repr

/-- `main()` (embedded as `py_main`, since Lean reserves the name) as a function of `sys.argv`, the file system (`fs path` is the
file contents as lines, `none` when `os.path.exists` is false), and the
network outcome per URL: wrong argument count prints the usage text; a
missing file prints `File does not exist`; otherwise the queue is built,
every submitted task fetches its URL, and the failure log lines are
printed. -/
def py_main (argv : List String) (fs : String → Option (List String))
    (net : String → FetchOutcome) : MainResult :=
  if argv.length ≠ 2 then
    { prints := usage_lines, fetch_calls := [] }
  else
    let file_path := argv.getD 1 ""
    match fs file_path with
    | none => { prints := ["File does not exist"], fetch_calls := [] }
    | some fileLines =>
      let url_queue := (read_urls_from_file fileLines).1
      let calls := process_urls url_queue
      { prints := calls.flatMap (fun u => (get_url_content (net u)).log),
        fetch_calls := calls }

/-- Spec-side predicate (from the words of the URL invariant in the data
model): every entry that enters the queue begins with `http://` or
`https://`. -/
def queue_entries_are_absolute (lines : List String) : Bool :=
  ((read_urls_from_file lines).1).all
    (fun u => py_startswith u "http://" || py_startswith u "https://")

/-- File system with no existing files, for concrete CLI scenarios. -/
def no_files : String → Option (List String) := fun _ => none

/-- Network where every URL raises, for concrete CLI scenarios (never
consulted in the scenarios proved). -/
def no_net : String → FetchOutcome := fun _ => FetchOutcome.requestError "unreachable"

/-! Helper lemmas. -/

theorem read_loop_cons (line : String) (rest : List String) (q : List String)
    (t : Nat) :
    read_loop (line :: rest) (q, t) =
      read_loop rest (q ++ enqueueForLine line, t + (enqueueForLine line).length) := by
  simp only [read_loop, enqueueForLine]
  by_cases h :
      (py_startswith (pyStrip line) "http" || py_startswith (pyStrip line) "https") = true
  · simp [h]
  · simp [h]

theorem read_loop_eq (lines : List String) :
    ∀ (q : List String) (t : Nat),
      read_loop lines (q, t) =
        (q ++ lines.flatMap enqueueForLine,
         t + (lines.flatMap enqueueForLine).length) := by
  induction lines with
  | nil => intro q t; simp [read_loop]
  | cons line rest ih =>
    intro q t
    rw [read_loop_cons, ih]
    simp [List.append_assoc, Prod.ext_iff]
    omega

theorem read_urls_eq (lines : List String) :
    read_urls_from_file lines =
      (lines.flatMap enqueueForLine, (lines.flatMap enqueueForLine).length) := by
  simpa [read_urls_from_file] using read_loop_eq lines [] 0

theorem read_total_eq_queue_length (lines : List String) :
    (read_urls_from_file lines).2 = (read_urls_from_file lines).1.length := by
  rw [read_urls_eq]

theorem run_updates_cons (b : Bool) (rest : List Bool) (s : Stats) :
    run_updates (b :: rest) s = run_updates rest (update_stats b s) := rfl

theorem run_updates_sum (outcomes : List Bool) :
    ∀ s : Stats,
      (run_updates outcomes s).processed_urls +
          (run_updates outcomes s).failed_urls =
        s.processed_urls + s.failed_urls + outcomes.length := by
  induction outcomes with
  | nil => intro s; simp [run_updates]
  | cons b rest ih =>
    intro s
    rw [run_updates_cons, ih]
    cases b <;> simp [update_stats] <;> omega

theorem startswith_concat_http (u : String) :
    py_startswith (py_concat "http://" u) "http" = true := rfl

theorem startswith_concat_https (u : String) :
    py_startswith (py_concat "https://" u) "http" = true := rfl

theorem startswith_http_of_https (u : String)
    (h : py_startswith u "https" = true) : py_startswith u "http" = true := by
  have h5 : u.data.take 5 = ['h', 't', 't', 'p', 's'] := of_decide_eq_true h
  apply decide_eq_true
  show u.data.take 4 = ['h', 't', 't', 'p']
  have t : u.data.take 4 = (u.data.take 5).take 4 := by
    rw [List.take_take]
    norm_num
  rw [t, h5]
  rfl

theorem mem_enqueueForLine_startswith (line u : String)
    (hu : u ∈ enqueueForLine line) : py_startswith u "http" = true := by
  unfold enqueueForLine at hu
  by_cases h :
      (py_startswith (pyStrip line) "http" || py_startswith (pyStrip line) "https") = true
  · rw [if_pos h] at hu
    simp only [List.mem_singleton] at hu
    subst hu
    rcases Bool.or_eq_true_iff.mp h with h1 | h2
    · exact h1
    · exact startswith_http_of_https _ h2
  · rw [if_neg h] at hu
    simp only [List.mem_cons, List.mem_singleton, List.not_mem_nil, or_false] at hu
    rcases hu with h1 | h2
    · rw [h1]; exact startswith_concat_http _
    · rw [h2]; exact startswith_concat_https _

theorem raise_for_status_error (r : Response)
    (h : 400 ≤ r.status_code ∧ r.status_code < 600) :
    ∃ e, raise_for_status r = Except.error e := by
  unfold raise_for_status
  by_cases hc : 400 ≤ r.status_code ∧ r.status_code < 500
  · rw [if_pos hc]; exact ⟨_, rfl⟩
  · rw [if_neg hc, if_pos (by omega)]; exact ⟨_, rfl⟩

theorem raise_for_status_ok (r : Response)
    (h : r.status_code < 400 ∨ 600 ≤ r.status_code) :
    raise_for_status r = Except.ok () := by
  unfold raise_for_status
  rw [if_neg (by omega), if_neg (by omega)]

theorem submit_loop_self : ∀ q : List String, submit_loop q.length q = q
  | [] => rfl
  | u :: rest => by
    simp only [List.length_cons, submit_loop]
    rw [submit_loop_self rest]

/-! Claim theorems. -/

/-- Claim C1: for every input file the counters satisfy
`succeeded + failed <= total` after every prefix of the serialized update
sequence (the lock totally orders updates, so every program point sees the
state after some prefix), and once all enqueued entries have been processed
(one update per fetch call, one fetch call per entry) the counters satisfy
`succeeded + failed = total`, where `total` is `total_urls_in_queue` as
produced by `read_urls_from_file`. -/
theorem C1_counters_invariant (fileLines : List String) (outcomes : List Bool)
    (i : Nat)
    (hlen : outcomes.length = (read_urls_from_file fileLines).1.length) :
    ((run_updates (outcomes.take i) init_stats).processed_urls +
        (run_updates (outcomes.take i) init_stats).failed_urls ≤
      (read_urls_from_file fileLines).2) ∧
    (run_updates outcomes init_stats).processed_urls +
        (run_updates outcomes init_stats).failed_urls =
      (read_urls_from_file fileLines).2 := by
  have htot : (read_urls_from_file fileLines).2 =
      (read_urls_from_file fileLines).1.length :=
    read_total_eq_queue_length fileLines
  constructor
  · rw [run_updates_sum]
    have hti : (outcomes.take i).length = min i outcomes.length :=
      List.length_take i outcomes
    simp only [init_stats]
    omega
  · rw [run_updates_sum]
    simp only [init_stats]
    omega

theorem C1_witness :
    ((run_updates ([true].take 1) init_stats).processed_urls +
        (run_updates ([true].take 1) init_stats).failed_urls ≤
      (read_urls_from_file ["https://example.com"]).2) ∧
    (run_updates [true] init_stats).processed_urls +
        (run_updates [true] init_stats).failed_urls =
      (read_urls_from_file ["https://example.com"]).2 :=
  C1_counters_invariant ["https://example.com"] [true] 1 (by decide)

/-- Claim C2 counterexample: the claim says every enqueued entry begins with
`http://` or `https://`, but the reader only checks `startswith("http")`;
for the input line `httpfoo` the entry `httpfoo` is enqueued verbatim and
begins with neither prefix. -/
theorem C2_counterexample : queue_entries_are_absolute ["httpfoo"] = false := by
  decide

/-- Claim C2 (amended): every string that enters the URL queue begins with
`http` — lines passing the `startswith("http")` check are enqueued verbatim
(so entries such as `httpfoo` need not contain `://`), while entries
synthesized for bare-host lines do begin with `http://` or `https://`. -/
theorem C2_queue_entries_start_http (fileLines : List String) (u : String)
    (hu : u ∈ (read_urls_from_file fileLines).1) :
    py_startswith u "http" = true := by
  rw [read_urls_eq] at hu
  simp only [List.mem_flatMap] at hu
  obtain ⟨line, _, hline⟩ := hu
  exact mem_enqueueForLine_startswith line u hline

theorem C2_witness :
    "https://x.org" ∈ (read_urls_from_file ["https://x.org"]).1 ∧
    py_startswith "https://x.org" "http" = true :=
  ⟨by decide, C2_queue_entries_start_http ["https://x.org"] "https://x.org" (by decide)⟩

/-- Claim C3: normalization of input lines — `www.example.com` yields
exactly the two entries `http://example.com` and `https://example.com`
(with `total_urls_in_queue = 2`), and `https://example.com` yields exactly
the single entry `https://example.com` (with `total_urls_in_queue = 1`). -/
theorem C3_normalization :
    read_urls_from_file ["www.example.com"] =
      (["http://example.com", "https://example.com"], 2) ∧
    read_urls_from_file ["https://example.com"] =
      (["https://example.com"], 1) := by
  decide

/-- Claim C4 counterexample: the claim says each update erases exactly as
many lines as were last printed and re-renders a 4-line block; in fact
`clear_previous_lines(7)` always clears 7 lines while the four `print`
calls advance only 5 terminal lines (three counter lines, then
`print("\n")` which advances two). -/
theorem C4_counterexample :
    (update_and_print_statistics true 3 init_stats).cleared = 7 ∧
    lines_advanced (update_and_print_statistics true 3 init_stats).prints = 5 ∧
    (update_and_print_statistics true 3 init_stats).cleared ≠
      lines_advanced (update_and_print_statistics true 3 init_stats).prints := by
  decide

/-- Claim C4 (amended): each statistics update first clears a hard-coded 7
lines — a constant, not the number of lines last printed — and then
re-renders the status block with exactly 4 print calls (the three counter
lines and a final `print` of a newline), which advance at least 5 terminal
lines, so the cleared count always exceeds the height of the printed
block. -/
theorem C4_render_fixed_clear (success : Bool) (total : Nat) (s : Stats) :
    (update_and_print_statistics success total s).cleared = 7 ∧
    (update_and_print_statistics success total s).prints.length = 4 ∧
    (update_and_print_statistics success total s).prints.getLast? = some "\n" ∧
    5 ≤ lines_advanced (update_and_print_statistics success total s).prints := by
  refine ⟨rfl, rfl, rfl, ?_⟩
  have hn : newline_count "\n" = 1 := rfl
  simp only [update_and_print_statistics, lines_advanced, List.map_cons,
    List.map_nil, List.sum_cons, List.sum_nil]
  omega

/-- Claim C5: every call to `get_url_content` performs exactly one
statistics update before returning, and its outcome matches the call:
`success=True` exactly when a body is returned. -/
theorem C5_exactly_one_update (f : FetchOutcome) :
    (get_url_content f).updates.length = 1 ∧
    (get_url_content f).updates = [(get_url_content f).body.isSome] := by
  cases f with
  | response r =>
    rcases hre : raise_for_status r with e | u <;> simp [get_url_content, hre]
  | requestError e => exact ⟨rfl, rfl⟩
  | otherError e => exact ⟨rfl, rfl⟩

/-- Claim C6: a fetch that raises a transport-level `RequestException`, a
fetch whose response has a 4xx/5xx status (`raise_for_status` raises), and
a fetch that raises any other exception are all classified failure — the
single update is `success=False`, never `success=True` — log exactly one
human-readable error line and return no body; a fetch whose response status
is not 4xx/5xx returns the full response body as text with a
`success=True` update. -/
theorem C6_failure_classification (r ok_r : Response) (e : String)
    (hbad : 400 ≤ r.status_code ∧ r.status_code < 600)
    (hok : ok_r.status_code < 400 ∨ 600 ≤ ok_r.status_code) :
    (get_url_content (FetchOutcome.response r)).body = none ∧
    (get_url_content (FetchOutcome.response r)).updates = [false] ∧
    (get_url_content (FetchOutcome.response r)).log.length = 1 ∧
    (get_url_content (FetchOutcome.requestError e)).body = none ∧
    (get_url_content (FetchOutcome.requestError e)).updates = [false] ∧
    (get_url_content (FetchOutcome.requestError e)).log.length = 1 ∧
    (get_url_content (FetchOutcome.otherError e)).body = none ∧
    (get_url_content (FetchOutcome.otherError e)).updates = [false] ∧
    (get_url_content (FetchOutcome.otherError e)).log.length = 1 ∧
    (get_url_content (FetchOutcome.response ok_r)).body = some ok_r.text ∧
    (get_url_content (FetchOutcome.response ok_r)).updates = [true] := by
  obtain ⟨msg, hmsg⟩ := raise_for_status_error r hbad
  have hok2 : raise_for_status ok_r = Except.ok () := raise_for_status_ok ok_r hok
  refine ⟨?_, ?_, ?_, rfl, rfl, rfl, rfl, rfl, rfl, ?_, ?_⟩ <;>
    simp [get_url_content, hmsg, hok2]

theorem C6_witness :
    (get_url_content (FetchOutcome.response ⟨500, "err page"⟩)).body = none ∧
    (get_url_content (FetchOutcome.response ⟨500, "err page"⟩)).updates = [false] ∧
    (get_url_content (FetchOutcome.response ⟨500, "err page"⟩)).log.length = 1 ∧
    (get_url_content (FetchOutcome.requestError "connection refused")).body = none ∧
    (get_url_content (FetchOutcome.requestError "connection refused")).updates = [false] ∧
    (get_url_content (FetchOutcome.requestError "connection refused")).log.length = 1 ∧
    (get_url_content (FetchOutcome.otherError "connection refused")).body = none ∧
    (get_url_content (FetchOutcome.otherError "connection refused")).updates = [false] ∧
    (get_url_content (FetchOutcome.otherError "connection refused")).log.length = 1 ∧
    (get_url_content (FetchOutcome.response ⟨200, "hello"⟩)).body = some "hello" ∧
    (get_url_content (FetchOutcome.response ⟨200, "hello"⟩)).updates = [true] :=
  C6_failure_classification ⟨500, "err page"⟩ ⟨200, "hello"⟩ "connection refused"
    (by decide) (by decide)

/-- Claim C7: for a queue of size K at pool start, exactly K fetch calls
occur — the submission loop performs `qsize()` dequeues, and the dequeued
URLs are exactly the queue contents in order, so no entry is dequeued twice
and none is dropped. -/
theorem C7_exactly_k_fetches (q : List String) :
    (process_urls q).length = q.length ∧ process_urls q = q := by
  have h : process_urls q = q := submit_loop_self q
  exact ⟨by rw [h], h⟩

/-- Claim C8: with an argument count other than 2 (`sys.argv` includes the
script name, so zero or two-or-more user arguments) `main` prints the usage
text and fetches nothing; with a path that does not exist it prints
`File does not exist` and fetches nothing. -/
theorem C8_cli_errors (argv : List String) (fs : String → Option (List String))
    (net : String → FetchOutcome)
    (h : argv.length ≠ 2 ∨ (argv.length = 2 ∧ fs (argv.getD 1 "") = none)) :
    (py_main argv fs net).fetch_calls = [] ∧
    (py_main argv fs net).prints =
      (if argv.length ≠ 2 then usage_lines else ["File does not exist"]) := by
  simp only [py_main]
  rcases h with h | ⟨h2, hfs⟩
  · rw [if_pos h, if_pos h]
    exact ⟨rfl, rfl⟩
  · rw [if_neg (fun hc => hc h2), if_neg (fun hc => hc h2), hfs]
    exact ⟨rfl, rfl⟩

theorem C8_witness :
    (py_main ["main.py"] no_files no_net).fetch_calls = [] ∧
    (py_main ["main.py"] no_files no_net).prints =
      (if (["main.py"] : List String).length ≠ 2 then usage_lines
       else ["File does not exist"]) :=
  C8_cli_errors ["main.py"] no_files no_net (Or.inl (by decide))

/-- Claim C9: the code contradicts the claim — when an unexpected exception
surfaces from `future.result()` in the `as_completed` loop, the handler
evaluates `future.url`, but `concurrent.futures.Future` has no attribute
`url`, so the diagnostic print itself raises `AttributeError`; the loop
aborts with that exception and the remaining futures are never awaited
(here: with results `[exc, ok]` the loop returns the `AttributeError`
instead of awaiting the second future). -/
theorem C9_await_loop_crashes :
    await_loop [TaskResult.exc "boom", TaskResult.ok (some "page")] =
      Except.error "AttributeError: Future object has no attribute url" ∧
    await_loop [TaskResult.ok (some "page"), TaskResult.ok none] =
      Except.ok 2 :=
  ⟨rfl, rfl⟩

/-- Claim C10: a line that strips to the empty string is not skipped — it
takes the bare-host branch, so the two entries `http://` and `https://`
are enqueued and `total_urls_in_queue` is incremented by 2. -/
theorem C10_blank_line_enqueued (line : String) (q : List String) (t : Nat)
    (h : pyStrip line = "") :
    enqueueForLine line = ["http://", "https://"] ∧
    read_loop [line] (q, t) = (q ++ ["http://", "https://"], t + 2) := by
  have henq : enqueueForLine line = ["http://", "https://"] := by
    unfold enqueueForLine
    rw [h]
    rfl
  refine ⟨henq, ?_⟩
  rw [read_loop_cons, henq]
  rfl

theorem C10_witness :
    enqueueForLine "  " = ["http://", "https://"] ∧
    read_loop ["  "] ([], 0) = ([] ++ ["http://", "https://"], 0 + 2) :=
  C10_blank_line_enqueued "  " [] 0 (by decide)
